import Mathlib

/-!
Shallow embedding of the nvc compile-time expression evaluator (src/eval.c).

The C source implements a small interpreter ("sub virtual machine") over the
vcode IR, used to constant-fold pure function calls.  The embedding below
translates the data model and the operation handlers that the claims touch:

* `Value` mirrors `value_t`: a tagged union of integer / real / pointer /
  unconstrained array descriptor / constrained array storage.  The C union is
  modelled as a structure with one field per payload; a handler that writes
  only some fields leaves the others at their previous contents, which mirrors
  the in-place mutation of the C union for payloads of the same variant.
* `EvalState` mirrors `eval_state_t`: result register index, option flags, the
  failed flag and the bump-allocator book-keeping (`halloc`, lazily
  materialised backing buffer).  Registers are a dense `List Value`.  The byte
  arena (`halloc` accounting, exactly as in `eval_alloc`) is paired with an
  abstract value store `mem` for the contents of allocated runs; pointers are
  slot indices into `mem`.  Diagnostics (`note_at` / `warn_at` / `error_at`)
  are modelled as an appended event trace; `fatal` / `fatal_at` /
  `fatal_trace` and failed C `assert`s are modelled as the `Except.error`
  outcome, which aborts the whole compilation.
* `int64_t` is modelled as `Int`.  Where the C code truncates a 64-bit value
  to the platform `int` (as `eval_value_cmp` does) the truncation is explicit
  (`toInt32` after `wrap64`).  C `/` and `%` on `int64_t` are `Int.tdiv` and
  `Int.tmod` (truncation toward zero).  IEEE doubles are modelled as `ℚ`
  (every finite double is a rational; the conversions the claims mention are
  exactly representable).
* The recursive block dispatch of `eval_vcode` (jump/cond/case re-select a
  block and recurse) is modelled with an explicit fuel parameter counting
  block selections; the C code has no bound of its own, so exhausted fuel
  (`RunResult.outOfFuel`) means the C interpreter would still be running.

The scope context chain (`context_t`, variables, nested fcall argument
binding) and the vcode loading machinery are not modelled: no claim in scope
depends on them, and the opcodes embedded below (`VOp`) are the ones the
claims exercise.
-/

namespace NvcEval

/-- MAX_DIMS from eval.c. -/
def MAX_DIMS : Nat := 4

/-- EVAL_HEAP from eval.c: 4 * 1024 bytes. -/
def EVAL_HEAP : Nat := 4 * 1024

/-- sizeof(value_t) on the LP64 targets nvc supports: 4-byte kind tag padded
to 8, followed by an 8-byte union. -/
def sizeofValue : Nat := 16

/-- sizeof(uarray_t) on LP64: 4 dimension records of 24 bytes, the ndims
field, padding, and the data pointer. -/
def sizeofUArray : Nat := 112

/-- severity_t SEVERITY_NOTE. -/
def SEVERITY_NOTE : Int := 0

/-- severity_t SEVERITY_WARNING. -/
def SEVERITY_WARNING : Int := 1

/-- severity_t SEVERITY_ERROR. -/
def SEVERITY_ERROR : Int := 2

/-- severity_t SEVERITY_FAILURE. -/
def SEVERITY_FAILURE : Int := 3

/-- range_kind_t RANGE_TO (ascending). -/
def RANGE_TO : Int := 0

/-- range_kind_t RANGE_DOWNTO (descending). -/
def RANGE_DOWNTO : Int := 1

/-- value_kind_t from eval.c.  VALUE_INVALID is first (value 0), so a
zero-initialised register carries it. -/
inductive ValueKind where
  | invalid
  | vreal
  | integer
  | pointer
  | uarrayK
  | carray
deriving DecidableEq, Repr

/-- One dimension record of uarray_t: left bound, right bound, direction
(range_kind_t stored from an integer register). -/
structure UArrayDim where
  left : Int
  right : Int
  dir : Int
deriving DecidableEq, Repr

/-- uarray_t: dimension records, the ndims count and the data pointer (a slot
index into the value store; none models a null pointer). -/
structure UArrayRec where
  ndims : Nat
  dims : List UArrayDim
  data : Option Nat
deriving DecidableEq, Repr

/-- value_t.  The C union is flattened into independent payload fields; a
handler that assigns only `kind` leaves the payload fields at their previous
contents, matching the C code leaving the union bytes untouched. -/
structure Value where
  kind : ValueKind := ValueKind.invalid
  integer : Int := 0
  vreal : ℚ := 0
  pointer : Nat := 0
  uarray : Option UArrayRec := none
deriving DecidableEq, Repr

/-- A zero-initialised value slot, as produced by the xcalloc of
eval_new_context. -/
def defaultValue : Value := {}

/-- Shorthand for an integer-tagged value. -/
def intV (i : Int) : Value := { kind := ValueKind.integer, integer := i }

/-- eval_flags_t as a record of option bits. -/
structure Flags where
  fcallF : Bool := false
  folding : Bool := false
  bounds : Bool := false
  warn : Bool := false
  report : Bool := false
  verbose : Bool := false
  lowerF : Bool := false
deriving DecidableEq, Repr

/-- A diagnostic issued through note_at / warn_at / error_at. -/
inductive Event where
  | noteEv (msg : String)
  | warnEv (msg : String)
  | errorEv (msg : String)
deriving DecidableEq, Repr

/-- eval_state_t together with the observable diagnostic trace.  `heapMat`
models whether the lazily-allocated backing buffer exists (state->heap !=
NULL); `halloc` is the byte high-water mark; `mem` is the value store backing
allocated runs (pointers are slot indices into it). -/
structure EvalState where
  regs : List Value := []
  result : Option Nat := none
  flags : Flags := {}
  failed : Bool := false
  heapMat : Bool := false
  halloc : Nat := 0
  mem : List Value := []
  events : List Event := []
deriving DecidableEq, Repr

/-- eval_get_reg: read a register (registers are always in range in well
formed IR; out-of-range reads return the zero slot). -/
def readReg (r : Nat) (s : EvalState) : Value := s.regs.getD r defaultValue

/-- Write a register in place. -/
def writeReg (r : Nat) (v : Value) (s : EvalState) : EvalState :=
  { s with regs := s.regs.set r v }

/-- Write one value-store slot. -/
def writeMem (p : Nat) (v : Value) (s : EvalState) : EvalState :=
  { s with mem := s.mem.set p v }

/-- Write a run of consecutive value-store slots starting at p. -/
def writeMemList (p : Nat) : List Value → EvalState → EvalState
  | [], s => s
  | v :: vs, s => writeMemList (p + 1) vs (writeMem p v s)

/-- The EVAL_WARN macro: warn_at only when the EVAL_WARN flag is set. -/
def evalWarn (msg : String) (s : EvalState) : EvalState :=
  if s.flags.warn then { s with events := s.events ++ [Event.warnEv msg] } else s

/-- error_at. -/
def emitError (msg : String) (s : EvalState) : EvalState :=
  { s with events := s.events ++ [Event.errorEv msg] }

/-- note_at. -/
def emitNote (msg : String) (s : EvalState) : EvalState :=
  { s with events := s.events ++ [Event.noteEv msg] }

/-- warn_at (unconditional). -/
def emitWarnAlways (msg : String) (s : EvalState) : EvalState :=
  { s with events := s.events ++ [Event.warnEv msg] }

/-- eval_alloc from eval.c.  If the high-water mark plus the request exceeds
EVAL_HEAP, warn (under EVAL_WARN), set failed and return null leaving halloc
untouched; otherwise lazily materialise the backing buffer, return the old
high-water mark as the allocation and advance it by exactly nbytes. -/
def eval_alloc (nbytes : Nat) (s : EvalState) : Option Nat × EvalState :=
  if s.halloc + nbytes > EVAL_HEAP then
    let s1 := evalWarn ("evaluation heap exhaustion prevents constant folding ("
      ++ toString s.halloc ++ " allocated, " ++ toString nbytes ++ " requested)") s
    (none, { s1 with failed := true })
  else
    let s1 := if s.heapMat then s else { s with heapMat := true }
    (some s1.halloc, { s1 with halloc := s1.halloc + nbytes })

/-- Allocate a run of n value slots: performs the byte-level eval_alloc
accounting for sizeof(value_t) * n and, on success, extends the value store
by n zero slots, returning the slot index of the first. -/
def allocValues (n : Nat) (s : EvalState) : Option Nat × EvalState :=
  match eval_alloc (sizeofValue * n) s with
  | (none, s1) => (none, s1)
  | (some _, s1) =>
      (some s1.mem.length, { s1 with mem := s1.mem ++ List.replicate n defaultValue })

/-- Truncation of a 64-bit signed value to the platform 32-bit int, as done
by returning an int64_t expression from a function declared to return int. -/
def toInt32 (x : Int) : Int := (x + 2 ^ 31) % 2 ^ 32 - 2 ^ 31

/-- Two's-complement wrap of a mathematical integer into int64_t. -/
def wrap64 (x : Int) : Int := (x + 2 ^ 63) % 2 ^ 64 - 2 ^ 63

/-- eval_value_cmp from eval.c.  Kinds must agree (C assert).  For integers
the C code returns the int64_t difference from a function returning int: the
difference is truncated to 32 bits.  Reals compare by sign of the difference;
pointers by address order (also truncated to int).  Any other kind is a
fatal_trace. -/
def eval_value_cmp (lhs rhs : Value) : Except String Int :=
  if lhs.kind ≠ rhs.kind then Except.error "assertion failed: value kinds differ"
  else match lhs.kind with
  | ValueKind.integer => Except.ok (toInt32 (wrap64 (lhs.integer - rhs.integer)))
  | ValueKind.vreal =>
      Except.ok (if lhs.vreal - rhs.vreal < 0 then -1
        else if 0 < lhs.vreal - rhs.vreal then 1 else 0)
  | ValueKind.pointer => Except.ok (toInt32 ((lhs.pointer : Int) - (rhs.pointer : Int)))
  | _ => Except.error "invalid value type in eval_value_cmp"

/-- Severity level names used by eval_message. -/
def levelName (sev : Int) : String :=
  if sev = 0 then "Note" else if sev = 1 then "Warning"
  else if sev = 2 then "Error" else "Failure"

/-- Dispatch of eval_message to note_at / warn_at / error_at by severity
(SEVERITY_ERROR and SEVERITY_FAILURE both go to error_at). -/
def severityEvent (sev : Int) (msg : String) : Event :=
  if sev = 0 then Event.noteEv msg
  else if sev = 1 then Event.warnEv msg
  else Event.errorEv msg

/-- The message text copied out of the arena by eval_message: length
characters read from the value run at pointer p, each an integer-tagged
character code. -/
def messageCopy (p : Nat) (n : Nat) (s : EvalState) : String :=
  String.mk ((List.range n).map
    (fun i => Char.ofNat ((s.mem.getD (p + i) defaultValue).integer).toNat))

/-- The full formatted text emitted by eval_message: prefix, level name and
either the copied text or the default body. -/
def messageText (pre : String) (sev : Int) (body : String) : String :=
  pre ++ " " ++ levelName sev ++ ": " ++ body

/-- The message body chosen by eval_message: a positive length selects the
text copied from the arena, otherwise the default body. -/
def messageBody (textV lenV : Value) (s : EvalState) : String :=
  if 0 < lenV.integer then messageCopy textV.pointer lenV.integer.toNat s
  else "Assertion violation"

/-- eval_message from eval.c.  The text must be a pointer (C assert).  A
severity outside the four levels leaves the function pointer at fatal_at,
which aborts the compilation. -/
def eval_message (textV lenV sevV : Value) (pre : String) (s : EvalState) :
    Except String EvalState :=
  if textV.kind ≠ ValueKind.pointer then
    Except.error "assertion failed: text kind is pointer"
  else if 0 ≤ sevV.integer ∧ sevV.integer ≤ 3 then
    Except.ok { s with events := s.events ++ [severityEvent sevV.integer
      (messageText pre sevV.integer (messageBody textV lenV s))] }
  else Except.error "fatal_at in eval_message"

/-- eval_op_mod: integer only; zero divisor is fatal_at; otherwise the result
is labs(lhs % rhs) with the C truncating %. -/
def eval_op_mod (res a b : Nat) (s : EvalState) : Except String EvalState :=
  match (readReg a s).kind with
  | ValueKind.integer =>
      if (readReg b s).integer = 0 then Except.error "division by zero"
      else Except.ok (writeReg res
        { readReg res s with
          kind := ValueKind.integer
          integer := |Int.tmod (readReg a s).integer (readReg b s).integer| } s)
  | _ => Except.error "invalid value type in eval_op_mod"

/-- eval_op_rem: integer only; zero divisor is fatal_at; otherwise the result
is lhs - (lhs / rhs) * rhs with the C truncating division. -/
def eval_op_rem (res a b : Nat) (s : EvalState) : Except String EvalState :=
  match (readReg a s).kind with
  | ValueKind.integer =>
      if (readReg b s).integer = 0 then Except.error "division by zero"
      else Except.ok (writeReg res
        { readReg res s with
          kind := ValueKind.integer
          integer := (readReg a s).integer
            - (Int.tdiv (readReg a s).integer (readReg b s).integer)
              * (readReg b s).integer } s)
  | _ => Except.error "invalid value type in eval_op_rem"

/-- vcode_cmp_t sub-kinds handled by eval_op_cmp. -/
inductive CmpKind where
  | eq
  | neq
  | gt
  | geq
  | lt
  | leq
deriving DecidableEq, Repr

/-- The comparison of the eval_value_cmp result against zero selected by the
cmp sub-kind. -/
def cmpBool (ck : CmpKind) (c : Int) : Int :=
  match ck with
  | CmpKind.eq => if c = 0 then 1 else 0
  | CmpKind.neq => if c = 0 then 0 else 1
  | CmpKind.gt => if 0 < c then 1 else 0
  | CmpKind.geq => if 0 ≤ c then 1 else 0
  | CmpKind.lt => if c < 0 then 1 else 0
  | CmpKind.leq => if c ≤ 0 then 1 else 0

/-- eval_op_cmp: the result register is integer-tagged with the boolean of
comparing eval_value_cmp of the arguments against zero. -/
def eval_op_cmp (ck : CmpKind) (res a b : Nat) (s : EvalState) :
    Except String EvalState :=
  match eval_value_cmp (readReg a s) (readReg b s) with
  | Except.error m => Except.error m
  | Except.ok c =>
      Except.ok (writeReg res
        { readReg res s with kind := ValueKind.integer, integer := cmpBool ck c } s)

/-- vtype_kind_t of the destination type of a cast, restricted to the kinds
the cast handler distinguishes. -/
inductive VTypeKind where
  | tInt
  | tOffset
  | tReal
  | tOtherTy
deriving DecidableEq, Repr

/-- Conversion of a double to int64_t: truncation toward zero. -/
def truncToZero (q : ℚ) : Int := if q < 0 then Int.ceil q else Int.floor q

/-- The value written by a cast to an integer destination: the destination
kind is assigned first, then the inner switch on the source kind assigns the
payload, an unhandled source kind falling through and leaving the destination
register's previous payload in place. -/
def castToInt (sv d0 : Value) : Value :=
  match sv.kind with
  | ValueKind.integer => { d0 with kind := ValueKind.integer, integer := sv.integer }
  | ValueKind.vreal => { d0 with kind := ValueKind.integer, integer := truncToZero sv.vreal }
  | _ => { d0 with kind := ValueKind.integer }

/-- The value written by a cast to a real destination; same fall-through
shape as castToInt. -/
def castToReal (sv d0 : Value) : Value :=
  match sv.kind with
  | ValueKind.integer => { d0 with kind := ValueKind.vreal, vreal := (sv.integer : ℚ) }
  | ValueKind.vreal => { d0 with kind := ValueKind.vreal, vreal := sv.vreal }
  | _ => { d0 with kind := ValueKind.vreal }

/-- eval_op_cast from eval.c.  Integer and offset destination types convert
to integer, real destinations to real; an unhandled destination kind is
fatal. -/
def eval_op_cast (ty : VTypeKind) (res src : Nat) (s : EvalState) :
    Except String EvalState :=
  match ty with
  | VTypeKind.tInt | VTypeKind.tOffset =>
      Except.ok (writeReg res (castToInt (readReg src s) (readReg res s)) s)
  | VTypeKind.tReal =>
      Except.ok (writeReg res (castToReal (readReg src s) (readReg res s)) s)
  | VTypeKind.tOtherTy => Except.error "cannot handle destination type in cast"

/-- eval_op_assert from eval.c.  Argument order in the IR: test, severity,
text, length.  A nonzero test does nothing.  A zero test emits the message
under EVAL_REPORT and then assigns failed from severity >= SEVERITY_ERROR. -/
def eval_op_assert (t sv tx ln : Nat) (s : EvalState) : Except String EvalState :=
  if (readReg t s).integer = 0 then
    match (if s.flags.report then
        eval_message (readReg tx s) (readReg ln s) (readReg sv s) "Assertion" s
      else Except.ok s) with
    | Except.error m => Except.error m
    | Except.ok s2 =>
        Except.ok { s2 with failed := decide (SEVERITY_ERROR ≤ (readReg sv s).integer) }
  else Except.ok s

/-- The dimension records written by the loop in eval_op_wrap: the i-th
triple of argument registers after the data pointer gives left, right and
direction, each read from the register's integer payload. -/
def wrapDims (args : List Nat) (s : EvalState) : List UArrayDim :=
  (List.range ((args.length - 1) / 3)).map (fun i =>
    { left := (readReg (args.getD (3 * i + 1) 0) s).integer
      right := (readReg (args.getD (3 * i + 2) 0) s).integer
      dir := (readReg (args.getD (3 * i + 3) 0) s).integer })

/-- eval_op_wrap from eval.c.  The source must be a pointer (C assert).  The
destination is tagged VALUE_UARRAY, then the descriptor is arena-allocated
(failure leaves a null descriptor and the failed flag set by eval_alloc) and
its data pointer is set.  More than MAX_DIMS dimension triples set failed and
warn under EVAL_WARN, leaving the descriptor's count and dimensions at their
uninitialised (modelled zero) contents; otherwise the dimensions are recorded
from the argument registers. -/
def eval_op_wrap (res : Nat) (args : List Nat) (s : EvalState) :
    Except String EvalState :=
  if (readReg (args.getD 0 0) s).kind ≠ ValueKind.pointer then
    Except.error "assertion failed: wrap source is pointer"
  else
    match eval_alloc sizeofUArray s with
    | (none, s1) =>
        Except.ok (writeReg res
          { readReg res s with kind := ValueKind.uarrayK, uarray := none } s1)
    | (some _, s1) =>
        if MAX_DIMS < (args.length - 1) / 3 then
          Except.ok (writeReg res
            { readReg res s with
              kind := ValueKind.uarrayK
              uarray := some
                { ndims := 0
                  dims := []
                  data := some (readReg (args.getD 0 0) s).pointer } }
            (evalWarn (toString ((args.length - 1) / 3)
              ++ " dimensional array prevents constant folding")
              { s1 with failed := true }))
        else
          Except.ok (writeReg res
            { readReg res s with
              kind := ValueKind.uarrayK
              uarray := some
                { ndims := (args.length - 1) / 3
                  dims := wrapDims args s1
                  data := some (readReg (args.getD 0 0) s).pointer } } s1)

/-- The source type kinds distinguished by eval_op_image, with the data the
formatting needs: enum literal identifiers, the physical base unit name.  The
T_REAL case of the C code formats the double with printf %.*g and is outside
this integer/rational model; no claim depends on it. -/
inductive ImageType where
  | tInteger
  | tEnum (lits : List String)
  | tPhysical (unitName : String)
  | tOtherImg
deriving DecidableEq, Repr

/-- The character codes produced by the formatting switch of eval_op_image
(the snprintf into buf): decimal for integers, the literal identifier for
enums, decimal plus the unit name for physical types.  none models the
default branch (unsupported type kind). -/
def imageChars : ImageType → Value → Option (List Nat)
  | ImageType.tInteger, v => some ((toString v.integer).data.map Char.toNat)
  | ImageType.tEnum lits, v => some ((lits.getD v.integer.toNat "").data.map Char.toNat)
  | ImageType.tPhysical u, v =>
      some ((toString v.integer ++ " " ++ u).data.map Char.toNat)
  | ImageType.tOtherImg, _ => none

/-- eval_op_image from eval.c.  An unsupported type kind reports an error and
sets failed.  Otherwise the descriptor and the data run are arena-allocated
(either failure returns early with failed set by eval_alloc), the descriptor
is made 1-dimensional ascending over 1..len, and the characters are stored as
integer-tagged cells.  Nothing ever assigns the result register's kind tag:
the register keeps its previous kind (VALUE_INVALID for a fresh register)
while its uarray payload is written. -/
def eval_op_image (res obj : Nat) (ity : ImageType) (s : EvalState) : EvalState :=
  match imageChars ity (readReg obj s) with
  | none => { (emitError "cannot use IMAGE with this type" s) with failed := true }
  | some cs =>
      match eval_alloc sizeofUArray s with
      | (none, s1) => writeReg res { readReg res s with uarray := none } s1
      | (some _, s1) =>
          match allocValues cs.length s1 with
          | (none, s2) =>
              writeReg res { readReg res s with
                uarray := some { ndims := 0, dims := [], data := none } } s2
          | (some pd, s2) =>
              writeReg res
                { readReg res s with
                  uarray := some
                    { ndims := 1
                      dims := [{ left := 1, right := (cs.length : Int), dir := RANGE_TO }]
                      data := some pd } }
                (writeMemList pd
                  (cs.map (fun c =>
                    { defaultValue with kind := ValueKind.integer, integer := (c : Int) })) s2)

/-- The element-by-element comparison loop of eval_op_memcmp: 1 when every
pair compares equal under eval_value_cmp, 0 at the first mismatch. -/
def memcmpVals : List (Value × Value) → Except String Int
  | [] => Except.ok 1
  | (l, r) :: rest =>
      match eval_value_cmp l r with
      | Except.error m => Except.error m
      | Except.ok c => if c = 0 then memcmpVals rest else Except.ok 0

/-- eval_op_memcmp from eval.c.  Both operands must be pointers (C asserts);
the length register's integer payload bounds the loop (a negative length
means no iterations, hence equal). -/
def eval_op_memcmp (res a b ln : Nat) (s : EvalState) : Except String EvalState :=
  if (readReg a s).kind ≠ ValueKind.pointer then
    Except.error "assertion failed: memcmp lhs is pointer"
  else if (readReg b s).kind ≠ ValueKind.pointer then
    Except.error "assertion failed: memcmp rhs is pointer"
  else
    match memcmpVals ((List.range (readReg ln s).integer.toNat).map (fun i =>
        (s.mem.getD ((readReg a s).pointer + i) defaultValue,
         s.mem.getD ((readReg b s).pointer + i) defaultValue))) with
    | Except.error m => Except.error m
    | Except.ok v =>
        Except.ok (writeReg res
          { readReg res s with kind := ValueKind.integer, integer := v } s)

/-- The arm-selection loop of eval_op_case: the first case value comparing
equal (eval_value_cmp = 0) to the test redirects to its target; otherwise the
default target (target 0) stands. -/
def caseFind (test : Value) (s : EvalState) : List (Nat × Nat) → Nat → Except String Nat
  | [], dflt => Except.ok dflt
  | (r, t) :: rest, dflt =>
      match eval_value_cmp test (readReg r s) with
      | Except.error m => Except.error m
      | Except.ok c => if c = 0 then Except.ok t else caseFind test s rest dflt

/-- The vcode opcodes exercised by the claims, with their operands.  `unknown`
stands for any opcode with no case in the dispatch switch of eval_vcode
(falling into its `default:` label); `nestedFcall` is the recognised but
unimplemented VCODE_OP_NESTED_FCALL. -/
inductive VOp where
  | comment
  | constOp (res : Nat) (v : Int)
  | constReal (res : Nat) (v : ℚ)
  | retOp (args : List Nat)
  | jump (target : Nat)
  | cond (test : Nat) (t0 t1 : Nat)
  | caseOp (test : Nat) (dflt : Nat) (arms : List (Nat × Nat))
  | assertOp (test sev text len : Nat)
  | wrapOp (res : Nat) (args : List Nat)
  | imageOp (res obj : Nat) (ity : ImageType)
  | nestedFcall
  | modOp (res a b : Nat)
  | remOp (res a b : Nat)
  | cmpOp (ck : CmpKind) (res a b : Nat)
  | castOp (ty : VTypeKind) (res src : Nat)
  | memcmpOp (res a b len : Nat)
  | unknown (name : String)
deriving DecidableEq, Repr

/-- A vcode unit: register count and basic blocks. -/
structure VcodeUnit where
  nregs : Nat := 0
  blocks : List (List VOp) := []
deriving DecidableEq, Repr

/-- Outcome of running the instruction loop of one block: the frame finished
(return op, fall off the end, or the failed guard stopped it), a branch op
re-selected another block, or a fatal diagnostic aborted the compilation. -/
inductive StepOut where
  | fin (s : EvalState)
  | branch (b : Nat) (s : EvalState)
  | fatalStep (msg : String)
deriving DecidableEq, Repr

/-- Outcome of eval_vcode: the frame completed, a fatal diagnostic aborted
the compilation, or the fuel (block-selection budget of the model) ran out,
meaning the C code would still be running. -/
inductive RunResult where
  | done (s : EvalState)
  | fatal (msg : String)
  | outOfFuel (s : EvalState)
deriving DecidableEq, Repr

/-- The instruction loop of eval_vcode: iterate the block's ops in order,
stopping as soon as the failed flag is set (the loop guard), on a return, or
on a branch (jump / cond / case, which in the C code re-select a block and
recurse).  VCODE_OP_FCALL is not embedded, so the EVAL_FCALL gate of the
dispatch switch does not appear here. -/
def runOps : List VOp → EvalState → StepOut
  | [], s => StepOut.fin s
  | op :: rest, s =>
    if s.failed then StepOut.fin s
    else
      match op with
      | VOp.comment => runOps rest s
      | VOp.constOp r v =>
          runOps rest (writeReg r
            { readReg r s with kind := ValueKind.integer, integer := v } s)
      | VOp.constReal r v =>
          runOps rest (writeReg r
            { readReg r s with kind := ValueKind.vreal, vreal := v } s)
      | VOp.retOp args =>
          StepOut.fin (match args with
            | [] => s
            | a :: _ => { s with result := some a })
      | VOp.jump t => StepOut.branch t s
      | VOp.cond tr t0 t1 =>
          StepOut.branch (if (readReg tr s).integer = 0 then t1 else t0) s
      | VOp.caseOp tr dflt arms =>
          match caseFind (readReg tr s) s arms dflt with
          | Except.error m => StepOut.fatalStep m
          | Except.ok t => StepOut.branch t s
      | VOp.assertOp t sv tx ln =>
          match eval_op_assert t sv tx ln s with
          | Except.error m => StepOut.fatalStep m
          | Except.ok s2 => runOps rest s2
      | VOp.wrapOp r args =>
          match eval_op_wrap r args s with
          | Except.error m => StepOut.fatalStep m
          | Except.ok s2 => runOps rest s2
      | VOp.imageOp r ob ity => runOps rest (eval_op_image r ob ity s)
      | VOp.nestedFcall => runOps rest { s with failed := true }
      | VOp.modOp r a b =>
          match eval_op_mod r a b s with
          | Except.error m => StepOut.fatalStep m
          | Except.ok s2 => runOps rest s2
      | VOp.remOp r a b =>
          match eval_op_rem r a b s with
          | Except.error m => StepOut.fatalStep m
          | Except.ok s2 => runOps rest s2
      | VOp.cmpOp ck r a b =>
          match eval_op_cmp ck r a b s with
          | Except.error m => StepOut.fatalStep m
          | Except.ok s2 => runOps rest s2
      | VOp.castOp ty r a =>
          match eval_op_cast ty r a s with
          | Except.error m => StepOut.fatalStep m
          | Except.ok s2 => runOps rest s2
      | VOp.memcmpOp r a b ln =>
          match eval_op_memcmp r a b ln s with
          | Except.error m => StepOut.fatalStep m
          | Except.ok s2 => runOps rest s2
      | VOp.unknown name =>
          StepOut.fatalStep ("cannot evaluate vcode op " ++ name)

/-- eval_vcode from eval.c.  In the C source the branch handlers re-enter
eval_vcode recursively on the call stack with no bound; the fuel parameter
counts block selections, and running out of fuel reports that the C
interpreter would still be running. -/
def eval_vcode : Nat → VcodeUnit → Nat → EvalState → RunResult
  | 0, _, _, s => RunResult.outOfFuel s
  | Nat.succ f, u, b, s =>
    match runOps (u.blocks.getD b []) s with
    | StepOut.fin s2 => RunResult.done s2
    | StepOut.fatalStep m => RunResult.fatal m
    | StepOut.branch b2 s2 => eval_vcode f u b2 s2

/-- The parts of type_t that the public entry inspects. -/
structure TreeType where
  isScalar : Bool := false
  isEnum : Bool := false
deriving DecidableEq, Repr

/-- The syntax-tree shapes eval and eval_possible inspect: function calls
(with the callee's impurity flag), literals, type conversions, references to
unit declarations / enum literals / constant declarations / anything else,
any other expression kind, and the literal nodes the entry reifies
(get_int_lit / get_real_lit / get_enum_lit). -/
inductive TreeT where
  | fcall (ty : TreeType) (impure : Bool) (params : List TreeT)
  | literal (ty : TreeType)
  | typeConv (ty : TreeType) (arg : TreeT)
  | refUnit (ty : TreeType)
  | refEnum (ty : TreeType)
  | refConst (ty : TreeType) (value : TreeT)
  | refOther (ty : TreeType)
  | otherT (ty : TreeType)
  | intLit (ty : TreeType) (v : Int)
  | realLit (ty : TreeType) (v : ℚ)
  | enumLit (ty : TreeType) (v : Int)

/-- tree_type. -/
def treeType : TreeT → TreeType
  | TreeT.fcall ty _ _ => ty
  | TreeT.literal ty => ty
  | TreeT.typeConv ty _ => ty
  | TreeT.refUnit ty => ty
  | TreeT.refEnum ty => ty
  | TreeT.refConst ty _ => ty
  | TreeT.refOther ty => ty
  | TreeT.otherT ty => ty
  | TreeT.intLit ty _ => ty
  | TreeT.realLit ty _ => ty
  | TreeT.enumLit ty _ => ty

/-- tree_kind(t) == T_FCALL. -/
def TreeT.isFcall : TreeT → Bool
  | TreeT.fcall _ _ _ => true
  | _ => false

mutual

/-- eval_possible from eval.c: the syntactic pre-filter of the public entry.
Calls to impure callees are rejected; under EVAL_FOLDING a parameter that is
itself a scalar-returning call would already have been folded, so its
presence rejects; calls in parameters need EVAL_FCALL; literals, unit and
enum references pass; constant references recurse into the initialiser; a
type conversion recurses into its argument; everything else is rejected
(with a warning under EVAL_WARN, which this pure model drops). -/
def eval_possible : TreeT → Flags → Bool
  | TreeT.fcall _ impure params, flags =>
      if impure then false else evalPossibleParams params flags
  | TreeT.literal _, _ => true
  | TreeT.intLit _ _, _ => true
  | TreeT.realLit _ _, _ => true
  | TreeT.enumLit _ _, _ => true
  | TreeT.typeConv _ arg, flags => eval_possible arg flags
  | TreeT.refUnit _, _ => true
  | TreeT.refEnum _, _ => true
  | TreeT.refConst _ v, flags => eval_possible v flags
  | TreeT.refOther _, _ => false
  | TreeT.otherT _, _ => false

/-- The parameter loop of the T_FCALL case of eval_possible. -/
def evalPossibleParams : List TreeT → Flags → Bool
  | [], _ => true
  | p :: ps, flags =>
      (if flags.folding && p.isFcall && (treeType p).isScalar then false
       else if p.isFcall && !flags.fcallF then false
       else eval_possible p flags)
      && evalPossibleParams ps flags

end

/-- The external collaborators of the public entry: the thunk served by
lower_thunk for the call site (none when lowering declines), the
NVC_EVAL_VERBOSE environment variable, and the block-selection budget
standing in for the unbounded C call stack. -/
structure EvalEnv where
  thunk : Option VcodeUnit := none
  envVerbose : Bool := false
  fuel : Nat := 0

/-- What the public entry produces: a tree (the folded literal or the
original call), a fatal diagnostic aborting the compilation, or
non-termination of the underlying C code (fuel exhausted in the model). -/
inductive EvalResult where
  | tree (t : TreeT)
  | fatalErr (msg : String)
  | noTermination

/-- eval from eval.c, the public entry point.  The call must be a T_FCALL
(C assert).  A non-scalar result type returns the node unchanged, as does a
rejected pre-filter or a declined thunk.  NVC_EVAL_VERBOSE forces verbose,
and verbose forces warn and bounds.  The thunk is then interpreted from
block 0 on a fresh zeroed register file; a failed evaluation returns the
original node, a completed one must name a result register (C assert), and
the result is reified as an enum / integer / real literal, any other result
kind being a fatal_trace. -/
def eval (fcall : TreeT) (flags0 : Flags) (env : EvalEnv) : EvalResult :=
  if !fcall.isFcall then
    EvalResult.fatalErr "assertion failed: tree_kind(fcall) == T_FCALL"
  else if !(treeType fcall).isScalar then EvalResult.tree fcall
  else if !eval_possible fcall flags0 then EvalResult.tree fcall
  else
    let flags1 := if env.envVerbose then { flags0 with verbose := true } else flags0
    let flags2 := if flags1.verbose then { flags1 with warn := true, bounds := true }
      else flags1
    match env.thunk with
    | none => EvalResult.tree fcall
    | some u =>
        let s0 : EvalState := { regs := List.replicate u.nregs defaultValue, flags := flags2 }
        match eval_vcode env.fuel u 0 s0 with
        | RunResult.outOfFuel _ => EvalResult.noTermination
        | RunResult.fatal m => EvalResult.fatalErr m
        | RunResult.done s =>
            if s.failed then EvalResult.tree fcall
            else
              match s.result with
              | none => EvalResult.fatalErr "assertion failed: state.result != -1"
              | some r =>
                  let v := readReg r s
                  match v.kind with
                  | ValueKind.integer =>
                      if (treeType fcall).isEnum then
                        EvalResult.tree (TreeT.enumLit (treeType fcall) v.integer)
                      else EvalResult.tree (TreeT.intLit (treeType fcall) v.integer)
                  | ValueKind.vreal => EvalResult.tree (TreeT.realLit (treeType fcall) v.vreal)
                  | _ => EvalResult.fatalErr "eval result is not scalar"

/-- Shorthand for a pointer-tagged value. -/
def ptrV (p : Nat) : Value := { kind := ValueKind.pointer, pointer := p }

/-- The empty flag set. -/
def flagsNone : Flags := {}

/-- Flag set with only EVAL_WARN. -/
def flagsWarn : Flags := { warn := true }

/-- Flag set with only EVAL_REPORT. -/
def flagsReport : Flags := { report := true }

/-- A scalar, non-enum result type. -/
def tyScalarInt : TreeType := { isScalar := true, isEnum := false }

/-- A non-scalar (aggregate) result type. -/
def tyAgg : TreeType := { isScalar := false, isEnum := false }

/-- A parameterless call to a pure callee with scalar result type. -/
def fcallScalar : TreeT := TreeT.fcall tyScalarInt false []

/-- A parameterless call to a pure callee with aggregate result type. -/
def fcallAgg : TreeT := TreeT.fcall tyAgg false []

/-- A one-block unit whose only op jumps back to its own block: the tightest
runaway loop expressible in the IR. -/
def loopUnit : VcodeUnit := { nregs := 1, blocks := [[VOp.jump 0]] }

/-- A fresh one-register evaluation state with no flags. -/
def stateZero : EvalState := { regs := [defaultValue] }

/-- A unit whose first op is an opcode outside the dispatch switch. -/
def unitUnknown : VcodeUnit := { nregs := 1, blocks := [[VOp.unknown "foo"]] }

/-- A unit whose first op is the unimplemented VCODE_OP_NESTED_FCALL. -/
def unitNested : VcodeUnit := { nregs := 1, blocks := [[VOp.nestedFcall]] }

/-- Environment serving the unknown-opcode thunk. -/
def envUnknown : EvalEnv := { thunk := some unitUnknown, fuel := 4 }

/-- Environment serving the nested-fcall thunk. -/
def envNested : EvalEnv := { thunk := some unitNested, fuel := 4 }

/-- State with two distinct integers 2^32 apart, two pointers at their
value-store slots and a length of 1, exercising the comparison truncation. -/
def sCmp : EvalState :=
  { regs := [defaultValue, intV (2 ^ 32), intV 0, ptrV 0, ptrV 1, intV 1]
    mem := [intV (2 ^ 32), intV 0] }

/-- State holding the integer 5 for the image op. -/
def sImg : EvalState := { regs := [defaultValue, intV 5] }

/-- State whose destination register previously held the integer 42 and
whose source register holds a pointer, for the cast fall-through. -/
def sCast : EvalState := { regs := [intV 42, ptrV 7] }

/-- State for a five-dimension wrap: register 0 holds the data pointer and
register 1 the bound used by every dimension triple; EVAL_WARN is set. -/
def sWrap : EvalState := { regs := [ptrV 0, intV 1], flags := flagsWarn }

/-- Argument registers of a five-dimension wrap: the data pointer register
followed by five (left, right, dir) triples. -/
def wrapArgs5 : List Nat := [0, 1, 1, 1, 1, 1, 1, 1, 1, 1, 1, 1, 1, 1, 1, 1]

/-- State for a failing assertion of severity FAILURE with EVAL_REPORT set:
test register 0, severity register FAILURE, text pointer, zero length. -/
def sAssert : EvalState :=
  { regs := [intV 0, intV 3, ptrV 0, intV 0], flags := flagsReport }

/-- State with 4000 of the 4096 arena bytes used. -/
def sAlloc : EvalState := { halloc := 4000 }

/-- State holding 7 and -2 in the argument registers of mod / rem. -/
def sModRem : EvalState := { regs := [defaultValue, intV 7, intV (-2)] }

/-- The high-water mark recorded in a StepOut stays within EVAL_HEAP (a fatal
outcome aborts the compilation and carries no state). -/
def StepOut.hallocLe : StepOut → Prop
  | StepOut.fin s => s.halloc ≤ EVAL_HEAP
  | StepOut.branch _ s => s.halloc ≤ EVAL_HEAP
  | StepOut.fatalStep _ => True

/-- The high-water mark recorded in a RunResult stays within EVAL_HEAP. -/
def RunResult.hallocLe : RunResult → Prop
  | RunResult.done s => s.halloc ≤ EVAL_HEAP
  | RunResult.outOfFuel s => s.halloc ≤ EVAL_HEAP
  | RunResult.fatal _ => True

@[simp]
theorem writeReg_halloc (r : Nat) (v : Value) (s : EvalState) :
    (writeReg r v s).halloc = s.halloc := rfl

@[simp]
theorem writeMem_halloc (p : Nat) (v : Value) (s : EvalState) :
    (writeMem p v s).halloc = s.halloc := rfl

@[simp]
theorem writeMemList_halloc (vs : List Value) :
    ∀ (p : Nat) (s : EvalState), (writeMemList p vs s).halloc = s.halloc := by
  induction vs with
  | nil => intro p s; rfl
  | cons v vs ih => intro p s; simp [writeMemList, ih]

@[simp]
theorem evalWarn_halloc (m : String) (s : EvalState) :
    (evalWarn m s).halloc = s.halloc := by
  unfold evalWarn; split <;> rfl

@[simp]
theorem emitError_halloc (m : String) (s : EvalState) :
    (emitError m s).halloc = s.halloc := rfl

theorem eval_alloc_halloc_le (n : Nat) (s : EvalState) (h : s.halloc ≤ EVAL_HEAP)
    (p : Option Nat) (s1 : EvalState) (he : eval_alloc n s = (p, s1)) :
    s1.halloc ≤ EVAL_HEAP := by
  unfold eval_alloc at he
  split at he
  · cases he; simpa using h
  · next hng =>
    cases he
    by_cases hm : s.heapMat <;> simp [hm] <;> omega

theorem allocValues_halloc_le (n : Nat) (s : EvalState) (h : s.halloc ≤ EVAL_HEAP)
    (p : Option Nat) (s1 : EvalState) (he : allocValues n s = (p, s1)) :
    s1.halloc ≤ EVAL_HEAP := by
  unfold allocValues at he
  rcases heq : eval_alloc (sizeofValue * n) s with ⟨p2, s2⟩
  rw [heq] at he
  have h2 := eval_alloc_halloc_le _ _ h _ _ heq
  cases p2 <;> cases he <;> simpa using h2

theorem eval_message_halloc (a b c : Value) (pre : String) (s s2 : EvalState)
    (h : eval_message a b c pre s = Except.ok s2) : s2.halloc = s.halloc := by
  unfold eval_message at h
  split at h
  · cases h
  · split at h
    · cases h; rfl
    · cases h

theorem eval_op_assert_halloc (t sv tx ln : Nat) (s s2 : EvalState)
    (h : eval_op_assert t sv tx ln s = Except.ok s2) : s2.halloc = s.halloc := by
  unfold eval_op_assert at h
  by_cases ht : (readReg t s).integer = 0
  · rw [if_pos ht] at h
    by_cases hr : s.flags.report
    · simp only [hr, if_true] at h
      rcases hmsg : eval_message (readReg tx s) (readReg ln s) (readReg sv s)
          "Assertion" s with m | s3
      · rw [hmsg] at h; cases h
      · rw [hmsg] at h
        cases h
        simpa using eval_message_halloc _ _ _ _ _ _ hmsg
    · simp only [hr, if_false] at h
      cases h
      rfl
  · rw [if_neg ht] at h
    cases h
    rfl

theorem eval_op_mod_halloc (res a b : Nat) (s s2 : EvalState)
    (h : eval_op_mod res a b s = Except.ok s2) : s2.halloc = s.halloc := by
  unfold eval_op_mod at h
  split at h <;> first
    | cases h
    | (split at h
       · cases h
       · cases h; rfl)

theorem eval_op_rem_halloc (res a b : Nat) (s s2 : EvalState)
    (h : eval_op_rem res a b s = Except.ok s2) : s2.halloc = s.halloc := by
  unfold eval_op_rem at h
  split at h <;> first
    | cases h
    | (split at h
       · cases h
       · cases h; rfl)

theorem eval_op_cmp_halloc (ck : CmpKind) (res a b : Nat) (s s2 : EvalState)
    (h : eval_op_cmp ck res a b s = Except.ok s2) : s2.halloc = s.halloc := by
  unfold eval_op_cmp at h
  split at h
  · cases h
  · cases h; rfl

theorem eval_op_cast_halloc (ty : VTypeKind) (res src : Nat) (s s2 : EvalState)
    (h : eval_op_cast ty res src s = Except.ok s2) : s2.halloc = s.halloc := by
  cases ty <;> simp only [eval_op_cast] at h <;> cases h <;> rfl

theorem eval_op_memcmp_halloc (res a b ln : Nat) (s s2 : EvalState)
    (h : eval_op_memcmp res a b ln s = Except.ok s2) : s2.halloc = s.halloc := by
  unfold eval_op_memcmp at h
  split at h
  · cases h
  · split at h
    · cases h
    · split at h
      · cases h
      · cases h; rfl

theorem eval_op_wrap_halloc_le (res : Nat) (args : List Nat) (s s2 : EvalState)
    (h0 : s.halloc ≤ EVAL_HEAP) (h : eval_op_wrap res args s = Except.ok s2) :
    s2.halloc ≤ EVAL_HEAP := by
  unfold eval_op_wrap at h
  split at h
  · cases h
  · split at h
    · rename_i s1 heq
      cases h
      simpa using eval_alloc_halloc_le _ _ h0 _ _ heq
    · rename_i val s1 heq
      by_cases hd : MAX_DIMS < (args.length - 1) / 3
      · rw [if_pos hd] at h
        cases h
        simpa using eval_alloc_halloc_le _ _ h0 _ _ heq
      · rw [if_neg hd] at h
        cases h
        simpa using eval_alloc_halloc_le _ _ h0 _ _ heq

theorem eval_op_image_halloc_le (res obj : Nat) (ity : ImageType) (s : EvalState)
    (h0 : s.halloc ≤ EVAL_HEAP) :
    (eval_op_image res obj ity s).halloc ≤ EVAL_HEAP := by
  unfold eval_op_image
  split
  · simpa using h0
  · split
    · rename_i s1 heq
      simpa using eval_alloc_halloc_le _ _ h0 _ _ heq
    · rename_i val s1 heq
      have h1 := eval_alloc_halloc_le _ _ h0 _ _ heq
      split
      · rename_i s2 heq2
        simpa using allocValues_halloc_le _ _ h1 _ _ heq2
      · rename_i pd s2 heq2
        simpa using allocValues_halloc_le _ _ h1 _ _ heq2

theorem runOps_halloc (ops : List VOp) :
    ∀ s : EvalState, s.halloc ≤ EVAL_HEAP → StepOut.hallocLe (runOps ops s) := by
  induction ops with
  | nil => intro s h; simpa [runOps, StepOut.hallocLe] using h
  | cons op rest ih =>
    intro s h
    by_cases hf : s.failed
    · simpa [runOps, hf, StepOut.hallocLe] using h
    · cases op with
      | comment => simpa [runOps, hf] using ih s h
      | constOp r v => simpa [runOps, hf] using ih _ (by simpa using h)
      | constReal r v => simpa [runOps, hf] using ih _ (by simpa using h)
      | retOp args =>
        cases args <;> simpa [runOps, hf, StepOut.hallocLe] using h
      | jump t => simpa [runOps, hf, StepOut.hallocLe] using h
      | cond tr t0 t1 => simpa [runOps, hf, StepOut.hallocLe] using h
      | caseOp tr dflt arms =>
        rcases heq : caseFind (readReg tr s) s arms dflt with m | t
        · simp [runOps, hf, heq, StepOut.hallocLe]
        · simpa [runOps, hf, heq, StepOut.hallocLe] using h
      | assertOp t sv tx ln =>
        rcases heq : eval_op_assert t sv tx ln s with m | s2
        · simp [runOps, hf, heq, StepOut.hallocLe]
        · have h2 := eval_op_assert_halloc _ _ _ _ _ _ heq
          simpa [runOps, hf, heq] using ih s2 (by omega)
      | wrapOp r args =>
        rcases heq : eval_op_wrap r args s with m | s2
        · simp [runOps, hf, heq, StepOut.hallocLe]
        · have h2 := eval_op_wrap_halloc_le _ _ _ _ h heq
          simpa [runOps, hf, heq] using ih s2 h2
      | imageOp r ob ity =>
        have h2 := eval_op_image_halloc_le r ob ity s h
        simpa [runOps, hf] using ih _ h2
      | nestedFcall => simpa [runOps, hf] using ih _ (by simpa using h)
      | modOp r a b =>
        rcases heq : eval_op_mod r a b s with m | s2
        · simp [runOps, hf, heq, StepOut.hallocLe]
        · have h2 := eval_op_mod_halloc _ _ _ _ _ heq
          simpa [runOps, hf, heq] using ih s2 (by omega)
      | remOp r a b =>
        rcases heq : eval_op_rem r a b s with m | s2
        · simp [runOps, hf, heq, StepOut.hallocLe]
        · have h2 := eval_op_rem_halloc _ _ _ _ _ heq
          simpa [runOps, hf, heq] using ih s2 (by omega)
      | cmpOp ck r a b =>
        rcases heq : eval_op_cmp ck r a b s with m | s2
        · simp [runOps, hf, heq, StepOut.hallocLe]
        · have h2 := eval_op_cmp_halloc _ _ _ _ _ _ heq
          simpa [runOps, hf, heq] using ih s2 (by omega)
      | castOp ty r a =>
        rcases heq : eval_op_cast ty r a s with m | s2
        · simp [runOps, hf, heq, StepOut.hallocLe]
        · have h2 := eval_op_cast_halloc _ _ _ _ _ heq
          simpa [runOps, hf, heq] using ih s2 (by omega)
      | memcmpOp r a b ln =>
        rcases heq : eval_op_memcmp r a b ln s with m | s2
        · simp [runOps, hf, heq, StepOut.hallocLe]
        · have h2 := eval_op_memcmp_halloc _ _ _ _ _ _ heq
          simpa [runOps, hf, heq] using ih s2 (by omega)
      | unknown name => simp [runOps, hf, StepOut.hallocLe]

theorem eval_vcode_halloc (fuel : Nat) :
    ∀ (u : VcodeUnit) (b : Nat) (s : EvalState), s.halloc ≤ EVAL_HEAP →
      RunResult.hallocLe (eval_vcode fuel u b s) := by
  induction fuel with
  | zero => intro u b s h; simpa [eval_vcode, RunResult.hallocLe] using h
  | succ f ih =>
    intro u b s h
    have hr := runOps_halloc (u.blocks.getD b []) s h
    rcases heq : runOps (u.blocks.getD b []) s with s2 | ⟨b2, s2⟩ | m
    · rw [heq] at hr
      simp only [eval_vcode]
      rw [heq]
      simpa [RunResult.hallocLe, StepOut.hallocLe] using hr
    · rw [heq] at hr
      simp only [eval_vcode]
      rw [heq]
      exact ih u b2 s2 (by simpa [StepOut.hallocLe] using hr)
    · simp only [eval_vcode]
      rw [heq]
      simp [RunResult.hallocLe]

theorem loop_diverges (fuel : Nat) :
    ∀ s : EvalState, s.failed = false →
      eval_vcode fuel loopUnit 0 s = RunResult.outOfFuel s := by
  induction fuel with
  | zero => intro s _; rfl
  | succ f ih =>
    intro s h
    simp only [eval_vcode, loopUnit, runOps, h, List.getD]
    exact ih s h

/-- Claim C1: for every call-site node and every flag set, if the node's
result type is not scalar then eval returns the node itself unchanged: the
scalar test is the first thing the entry does, so no pre-filter runs, no
thunk is requested or interpreted and no literal is reified, whatever the
environment supplies. -/
theorem eval_nonscalar_identity (t : TreeT) (flags : Flags) (env : EvalEnv)
    (hk : t.isFcall = true) (hs : (treeType t).isScalar = false) :
    eval t flags env = EvalResult.tree t := by
  simp [eval, hk, hs]

theorem eval_nonscalar_identity_witness :
    eval fcallAgg flagsNone envUnknown = EvalResult.tree fcallAgg :=
  eval_nonscalar_identity fcallAgg flagsNone envUnknown rfl rfl

/-- Claim C2, counterexample: dispatch reaching an opcode outside the switch
does not abort gracefully.  On a thunk whose first op is such an opcode, the
public entry propagates the fatal diagnostic of the `default:` label (the
process is terminated by fatal), instead of returning the original call with
the failed flag set as the claim states. -/
theorem unknown_op_counterexample :
    eval fcallScalar flagsNone envUnknown
        = EvalResult.fatalErr "cannot evaluate vcode op foo"
      ∧ eval fcallScalar flagsNone envUnknown ≠ EvalResult.tree fcallScalar := by
  constructor
  · rfl
  · intro hc
    have : EvalResult.fatalErr "cannot evaluate vcode op foo"
        = EvalResult.tree fcallScalar := by
      rw [← hc]; rfl
    exact EvalResult.noConfusion this

/-- Claim C2, amended: an opcode with no case in the dispatch switch hits the
`default:` label, which calls fatal with a diagnostic naming the opcode and
aborts the whole compilation (runOps yields the fatal outcome, not a failed
state); it is only the recognised-but-unimplemented nested-fcall opcode that
aborts gracefully, setting failed so that the public entry returns the
original call unchanged. -/
theorem unknown_op_dispatch_amended (name : String) (rest : List VOp)
    (s : EvalState) (h : s.failed = false) :
    runOps (VOp.unknown name :: rest) s
        = StepOut.fatalStep ("cannot evaluate vcode op " ++ name)
      ∧ eval fcallScalar flagsNone envNested = EvalResult.tree fcallScalar := by
  constructor
  · simp [runOps, h]
  · rfl

theorem unknown_op_dispatch_amended_witness :
    runOps (VOp.unknown "bar" :: []) stateZero
        = StepOut.fatalStep ("cannot evaluate vcode op " ++ "bar")
      ∧ eval fcallScalar flagsNone envNested = EvalResult.tree fcallScalar :=
  unknown_op_dispatch_amended "bar" [] stateZero rfl

/-- Claim C3, counterexample: the one-block self-jump unit exceeds any
2^16 block-selection quota without the fold being aborted: after 2^16 + 2
block selections the interpreter is still running and the failed flag has
never been set, refuting both the claimed termination and the claimed
quota. -/
theorem block_quota_counterexample :
    eval_vcode (2 ^ 16 + 2) loopUnit 0 stateZero = RunResult.outOfFuel stateZero
      ∧ stateZero.failed = false
      ∧ 2 ^ 16 + 2 > 2 ^ 16 :=
  ⟨loop_diverges (2 ^ 16 + 2) stateZero rfl, rfl, by decide⟩

/-- Claim C3, amended: the interpreter imposes no block-selection quota at
all: the jump handler re-enters eval_vcode unconditionally, so on IR with a
non-allocating runaway loop the root evaluation never terminates - for every
block-selection budget the run exhausts the budget with the state untouched
and the failed flag still clear, and no abort of the fold ever happens.
(Runaway loops that allocate are stopped by the heap ceiling instead.) -/
theorem block_quota_amended (fuel : Nat) (s : EvalState) (h : s.failed = false) :
    eval_vcode fuel loopUnit 0 s = RunResult.outOfFuel s :=
  loop_diverges fuel s h

theorem block_quota_amended_witness :
    eval_vcode 5 loopUnit 0 stateZero = RunResult.outOfFuel stateZero :=
  block_quota_amended 5 stateZero rfl

@[simp]
theorem evalWarn_failed (m : String) (s : EvalState) :
    (evalWarn m s).failed = s.failed := by
  unfold evalWarn; split <;> rfl

@[simp]
theorem evalWarn_heapMat (m : String) (s : EvalState) :
    (evalWarn m s).heapMat = s.heapMat := by
  unfold evalWarn; split <;> rfl

@[simp]
theorem evalWarn_regs (m : String) (s : EvalState) :
    (evalWarn m s).regs = s.regs := by
  unfold evalWarn; split <;> rfl

@[simp]
theorem evalWarn_flags (m : String) (s : EvalState) :
    (evalWarn m s).flags = s.flags := by
  unfold evalWarn; split <;> rfl

/-- Claim C4: with a nonzero divisor, the rem op writes
lhs - (lhs / rhs) * rhs with truncating division (which equals the truncated
remainder Int.tmod), the mod op writes the absolute value of the truncated
remainder, and the round-trip identity (a/b)*b + rem(a,b) = a holds. -/
theorem mod_rem_algebra (res a b : Nat) (s : EvalState)
    (hak : (readReg a s).kind = ValueKind.integer)
    (hb : (readReg b s).integer ≠ 0) :
    eval_op_rem res a b s = Except.ok (writeReg res
        { readReg res s with
          kind := ValueKind.integer
          integer := (readReg a s).integer
            - Int.tdiv (readReg a s).integer (readReg b s).integer
              * (readReg b s).integer } s)
      ∧ eval_op_mod res a b s = Except.ok (writeReg res
        { readReg res s with
          kind := ValueKind.integer
          integer := |Int.tmod (readReg a s).integer (readReg b s).integer| } s)
      ∧ (readReg a s).integer
          - Int.tdiv (readReg a s).integer (readReg b s).integer * (readReg b s).integer
          = Int.tmod (readReg a s).integer (readReg b s).integer
      ∧ Int.tdiv (readReg a s).integer (readReg b s).integer * (readReg b s).integer
          + ((readReg a s).integer
             - Int.tdiv (readReg a s).integer (readReg b s).integer
               * (readReg b s).integer)
          = (readReg a s).integer := by
  refine ⟨?_, ?_, ?_, by ring⟩
  · simp [eval_op_rem, hak, hb]
  · simp [eval_op_mod, hak, hb]
  · have h := Int.tmod_add_tdiv (readReg a s).integer (readReg b s).integer
    have hc := mul_comm (readReg b s).integer
      (Int.tdiv (readReg a s).integer (readReg b s).integer)
    linarith

theorem mod_rem_algebra_witness :
    eval_op_rem 0 1 2 sModRem = Except.ok (writeReg 0 (intV 1) sModRem)
      ∧ eval_op_mod 0 1 2 sModRem = Except.ok (writeReg 0 (intV 1) sModRem) := by
  have h := mod_rem_algebra 0 1 2 sModRem (by decide) (by decide)
  refine ⟨?_, ?_⟩
  · rw [h.1]; rfl
  · rw [h.2.1]; rfl

/-- Claim C5: heap discipline of the bump arena.  A request that would push
the high-water mark past EVAL_HEAP sets failed, returns null and leaves
halloc and the lazily materialised buffer untouched; otherwise the request
returns the old mark, advances halloc by exactly the request, materialises
the buffer and leaves the failed flag and diagnostics alone.  Consequently
halloc never exceeds EVAL_HEAP after an allocation, and an entire eval_vcode
dispatch started within the bound stays within it. -/
theorem heap_alloc_discipline (n : Nat) (s : EvalState) (h : s.halloc ≤ EVAL_HEAP) :
    (s.halloc + n > EVAL_HEAP →
        (eval_alloc n s).1 = none
        ∧ ((eval_alloc n s).2).failed = true
        ∧ ((eval_alloc n s).2).halloc = s.halloc
        ∧ ((eval_alloc n s).2).heapMat = s.heapMat)
      ∧ (s.halloc + n ≤ EVAL_HEAP →
        (eval_alloc n s).1 = some s.halloc
        ∧ ((eval_alloc n s).2).halloc = s.halloc + n
        ∧ ((eval_alloc n s).2).heapMat = true
        ∧ ((eval_alloc n s).2).failed = s.failed
        ∧ ((eval_alloc n s).2).events = s.events)
      ∧ ((eval_alloc n s).2).halloc ≤ EVAL_HEAP
      ∧ (∀ (fuel : Nat) (u : VcodeUnit) (b : Nat),
          RunResult.hallocLe (eval_vcode fuel u b s)) := by
  refine ⟨?_, ?_, ?_, fun fuel u b => eval_vcode_halloc fuel u b s h⟩
  · intro hgt
    simp [eval_alloc, hgt]
  · intro hle
    have hngt : ¬ (s.halloc + n > EVAL_HEAP) := by omega
    by_cases hm : s.heapMat <;> simp [eval_alloc, hngt, hm]
  · rcases heq : eval_alloc n s with ⟨p, s2⟩
    simpa [heq] using eval_alloc_halloc_le n s h p s2 heq

theorem heap_alloc_discipline_witness :
    (eval_alloc 200 sAlloc).1 = none
      ∧ ((eval_alloc 200 sAlloc).2).failed = true
      ∧ ((eval_alloc 200 sAlloc).2).halloc = 4000
      ∧ (eval_alloc 96 sAlloc).1 = some 4000
      ∧ ((eval_alloc 96 sAlloc).2).halloc = 4096 := by
  have h1 := (heap_alloc_discipline 200 sAlloc (by decide)).1 (by decide)
  have h2 := (heap_alloc_discipline 96 sAlloc (by decide)).2.1 (by decide)
  exact ⟨h1.1, h1.2.1, by rw [h1.2.2.1]; decide, by rw [h2.1]; decide,
    by rw [h2.2.1]; decide⟩

theorem wrapDims_congr (args : List Nat) (s1 s2 : EvalState) (h : s1.regs = s2.regs) :
    wrapDims args s1 = wrapDims args s2 := by
  simp [wrapDims, readReg, h]

theorem eval_alloc_success_spec (n : Nat) (s : EvalState)
    (hle : s.halloc + n ≤ EVAL_HEAP) :
    (eval_alloc n s).1 = some s.halloc
      ∧ (eval_alloc n s).2 = { s with heapMat := true, halloc := s.halloc + n } := by
  have hngt : ¬ (s.halloc + n > EVAL_HEAP) := by omega
  by_cases hm : s.heapMat <;> simp [eval_alloc, hngt, hm]

/-- Claim C6: a wrap op whose argument list carries more than MAX_DIMS = 4
dimension triples (and whose descriptor allocation fits the arena) sets the
failed flag and, when the EVAL_WARN flag is set, emits the "N dimensional
array prevents constant folding" warning; with at most 4 triples it writes a
VALUE_UARRAY descriptor over the argument pointer recording the (left, right,
direction) triple of every dimension from the argument registers. -/
theorem wrap_dims_limit (res : Nat) (args : List Nat) (s : EvalState)
    (hp : (readReg (args.getD 0 0) s).kind = ValueKind.pointer)
    (hheap : s.halloc + sizeofUArray ≤ EVAL_HEAP) :
    (MAX_DIMS < (args.length - 1) / 3 →
        ∃ s2, eval_op_wrap res args s = Except.ok s2
          ∧ s2.failed = true
          ∧ (s.flags.warn = true →
              s2.events = s.events ++ [Event.warnEv (toString ((args.length - 1) / 3)
                ++ " dimensional array prevents constant folding")]))
      ∧ ((args.length - 1) / 3 ≤ MAX_DIMS →
        eval_op_wrap res args s = Except.ok (writeReg res
            { readReg res s with
              kind := ValueKind.uarrayK
              uarray := some
                { ndims := (args.length - 1) / 3
                  dims := wrapDims args s
                  data := some (readReg (args.getD 0 0) s).pointer } }
            ((eval_alloc sizeofUArray s).2))
          ∧ ((eval_alloc sizeofUArray s).2).failed = s.failed) := by
  have hnp : ¬ ((readReg (args.getD 0 0) s).kind ≠ ValueKind.pointer) := fun hc => hc hp
  obtain ⟨hfst, hsnd⟩ := eval_alloc_success_spec sizeofUArray s hheap
  constructor
  · intro hd
    unfold eval_op_wrap
    rw [if_neg hnp]
    rcases heq : eval_alloc sizeofUArray s with ⟨p, s1⟩
    rw [heq] at hfst hsnd
    subst hsnd
    cases hfst
    dsimp only
    rw [if_pos hd]
    refine ⟨_, rfl, by simp [writeReg], ?_⟩
    intro hw
    simp [writeReg, evalWarn, hw]
  · intro hd
    have hnd : ¬ (MAX_DIMS < (args.length - 1) / 3) := by omega
    unfold eval_op_wrap
    rw [if_neg hnp]
    rcases heq : eval_alloc sizeofUArray s with ⟨p, s1⟩
    rw [heq] at hfst hsnd
    subst hsnd
    cases hfst
    dsimp only
    rw [if_neg hnd]
    refine ⟨?_, rfl⟩
    rw [wrapDims_congr args { s with heapMat := true, halloc := s.halloc + sizeofUArray } s rfl]

theorem wrap_dims_limit_witness :
    ∃ s2, eval_op_wrap 0 wrapArgs5 sWrap = Except.ok s2
      ∧ s2.failed = true
      ∧ (sWrap.flags.warn = true →
          s2.events = sWrap.events ++ [Event.warnEv (toString ((wrapArgs5.length - 1) / 3)
            ++ " dimensional array prevents constant folding")]) :=
  (wrap_dims_limit 0 wrapArgs5 sWrap (by decide) (by decide)).1 (by decide)

/-- Claim C7: the assert op does nothing when the test is nonzero.  When the
test is 0 it emits, under the EVAL_REPORT flag, a formatted message at the
op's severity (note / warning / error / failure), stays silent without the
flag, and in either case ends with the failed flag assigned from
severity >= SEVERITY_ERROR - so starting from a clean state the fold is
aborted exactly when the test is 0 and the severity is at least error. -/
theorem assert_semantics (t sv tx ln : Nat) (s : EvalState)
    (hfail : s.failed = false)
    (hsev : 0 ≤ (readReg sv s).integer ∧ (readReg sv s).integer ≤ 3)
    (htx : (readReg tx s).kind = ValueKind.pointer) :
    ((readReg t s).integer ≠ 0 → eval_op_assert t sv tx ln s = Except.ok s)
      ∧ ((readReg t s).integer = 0 →
        (s.flags.report = true →
          eval_op_assert t sv tx ln s = Except.ok
            { s with
              events := s.events ++ [severityEvent (readReg sv s).integer
                (messageText "Assertion" (readReg sv s).integer
                  (messageBody (readReg tx s) (readReg ln s) s))]
              failed := decide (SEVERITY_ERROR ≤ (readReg sv s).integer) })
        ∧ (s.flags.report = false →
          eval_op_assert t sv tx ln s = Except.ok
            { s with failed := decide (SEVERITY_ERROR ≤ (readReg sv s).integer) }))
      ∧ (∀ s2, eval_op_assert t sv tx ln s = Except.ok s2 →
          (s2.failed = true ↔
            ((readReg t s).integer = 0 ∧ SEVERITY_ERROR ≤ (readReg sv s).integer))) := by
  have hmsg : eval_message (readReg tx s) (readReg ln s) (readReg sv s) "Assertion" s
      = Except.ok { s with events := s.events ++ [severityEvent (readReg sv s).integer
          (messageText "Assertion" (readReg sv s).integer
            (messageBody (readReg tx s) (readReg ln s) s))] } := by
    unfold eval_message
    rw [if_neg (by simp [htx]), if_pos hsev]
  refine ⟨?_, ?_, ?_⟩
  · intro ht
    unfold eval_op_assert
    rw [if_neg ht]
  · intro ht
    constructor
    · intro hr
      unfold eval_op_assert
      rw [if_pos ht]
      simp only [hr, if_true, hmsg]
    · intro hr
      unfold eval_op_assert
      rw [if_pos ht]
      simp only [hr, Bool.false_eq_true, if_false]
  · intro s2 h2
    unfold eval_op_assert at h2
    by_cases ht : (readReg t s).integer = 0
    · rw [if_pos ht] at h2
      by_cases hr : s.flags.report
      · simp only [hr, if_true, hmsg] at h2
        cases h2
        simp [ht, decide_eq_true_iff]
      · simp only [hr, Bool.false_eq_true, if_false] at h2
        cases h2
        simp [ht, decide_eq_true_iff]
    · rw [if_neg ht] at h2
      cases h2
      simp [hfail, ht]

theorem assert_semantics_witness :
    eval_op_assert 0 1 2 3 sAssert = Except.ok
      { sAssert with
        events := [Event.errorEv "Assertion Failure: Assertion violation"]
        failed := true } := by
  have h := ((assert_semantics 0 1 2 3 sAssert rfl (by decide) (by decide)).2.1
    (by decide)).1 (by decide)
  rw [h]
  rfl

/-- Claim C8, counterexample: a cast with integer destination type and a
pointer-valued source does not fail the fold.  The handler retags the
destination register as integer, the inner switch falls through leaving the
previous payload, and the failed flag stays clear - here the destination
already held the integer 42, so the op is a silent no-op. -/
theorem cast_fallthrough_counterexample :
    eval_op_cast VTypeKind.tInt 0 1 sCast = Except.ok sCast
      ∧ sCast.failed = false
      ∧ (readReg 1 sCast).kind = ValueKind.pointer
      ∧ (readReg 0 sCast).kind = ValueKind.integer
      ∧ (readReg 0 sCast).integer = 42 := by
  exact ⟨rfl, rfl, rfl, rfl, rfl⟩

/-- Claim C8, amended: the cast op preserves the value for an integer source
with integer (or offset) destination, truncates a real source toward zero
for an integer destination, widens an integer source exactly to a real
destination (and copies a real source); an unhandled source kind falls
through silently, retagging the destination kind but leaving the register's
previous payload and the failed flag untouched, and an unhandled destination
type kind aborts the whole compilation with fatal rather than failing the
fold. -/
theorem cast_semantics_amended (ty : VTypeKind) (res src : Nat) (s : EvalState) :
    ((ty = VTypeKind.tInt ∨ ty = VTypeKind.tOffset) →
        ((readReg src s).kind = ValueKind.integer →
          eval_op_cast ty res src s = Except.ok (writeReg res
            { readReg res s with
              kind := ValueKind.integer
              integer := (readReg src s).integer } s))
        ∧ ((readReg src s).kind = ValueKind.vreal →
          eval_op_cast ty res src s = Except.ok (writeReg res
            { readReg res s with
              kind := ValueKind.integer
              integer := truncToZero (readReg src s).vreal } s))
        ∧ ((readReg src s).kind = ValueKind.pointer →
          eval_op_cast ty res src s = Except.ok (writeReg res
            { readReg res s with kind := ValueKind.integer } s)
          ∧ (writeReg res { readReg res s with kind := ValueKind.integer } s).failed
              = s.failed))
      ∧ (ty = VTypeKind.tReal →
        ((readReg src s).kind = ValueKind.integer →
          eval_op_cast ty res src s = Except.ok (writeReg res
            { readReg res s with
              kind := ValueKind.vreal
              vreal := ((readReg src s).integer : ℚ) } s))
        ∧ ((readReg src s).kind = ValueKind.vreal →
          eval_op_cast ty res src s = Except.ok (writeReg res
            { readReg res s with
              kind := ValueKind.vreal
              vreal := (readReg src s).vreal } s)))
      ∧ (ty = VTypeKind.tOtherTy →
        eval_op_cast ty res src s = Except.error "cannot handle destination type in cast")
      ∧ (∀ q : ℚ, 0 ≤ q → truncToZero q = Int.floor q)
      ∧ (∀ q : ℚ, q < 0 → truncToZero q = Int.ceil q) := by
  refine ⟨?_, ?_, ?_, ?_, ?_⟩
  · intro hty
    refine ⟨?_, ?_, ?_⟩ <;> intro hsrc <;>
      rcases hty with h | h <;> subst h <;>
        simp [eval_op_cast, castToInt, hsrc, writeReg]
  · intro hty
    subst hty
    refine ⟨?_, ?_⟩ <;> intro hsrc <;> simp [eval_op_cast, castToReal, hsrc]
  · intro hty
    subst hty
    rfl
  · intro q hq
    simp [truncToZero, not_lt.mpr hq]
  · intro q hq
    simp [truncToZero, hq]

theorem cast_semantics_amended_witness :
    eval_op_cast VTypeKind.tReal 0 0 sCast = Except.ok (writeReg 0
      { readReg 0 sCast with
        kind := ValueKind.vreal
        vreal := ((readReg 0 sCast).integer : ℚ) } sCast) :=
  ((cast_semantics_amended VTypeKind.tReal 0 0 sCast).2.1 rfl).1 (by decide)

/-- Claim C9: the image op builds the claimed descriptor - 1-dimensional,
ascending, indices 1..length, integer-tagged character-code cells in an
arena-allocated data run (the decimal image of 5 is the single character
code 53) - but the result register is never tagged VALUE_UARRAY: the handler
omits the kind assignment, so a fresh (zero-initialised) register keeps
VALUE_INVALID while its uarray payload is written.  This contradicts the
asserted convention of the other uarray handlers and the spec's stated
construction, with the failed flag clear and both allocations charged to the
arena. -/
theorem image_missing_kind_tag :
    ((eval_op_image 0 1 ImageType.tInteger sImg).regs.getD 0 defaultValue).kind
        = ValueKind.invalid
      ∧ ((eval_op_image 0 1 ImageType.tInteger sImg).regs.getD 0 defaultValue).kind
        ≠ ValueKind.uarrayK
      ∧ ((eval_op_image 0 1 ImageType.tInteger sImg).regs.getD 0 defaultValue).uarray
        = some
            { ndims := 1
              dims := [{ left := 1, right := 1, dir := RANGE_TO }]
              data := some 0 }
      ∧ (eval_op_image 0 1 ImageType.tInteger sImg).mem
        = [{ defaultValue with kind := ValueKind.integer, integer := 53 }]
      ∧ (eval_op_image 0 1 ImageType.tInteger sImg).failed = false
      ∧ (eval_op_image 0 1 ImageType.tInteger sImg).halloc
        = sizeofUArray + sizeofValue := by
  refine ⟨?_, ?_, ?_, ?_, ?_, ?_⟩ <;> decide

/-- Claim C10: eval_value_cmp returns the 64-bit difference of two integer
values truncated to the platform int, so the distinct values 2^32 and 0
compare as equal: the cmp op with sub-kind eq writes 1, the case op selects
the arm whose value is 0 rather than the default, and memcmp reports the
element pair equal even though the stored values differ. -/
theorem cmp_truncation_aliasing :
    eval_value_cmp (intV (2 ^ 32)) (intV 0) = Except.ok 0
      ∧ intV (2 ^ 32) ≠ intV 0
      ∧ (∃ s2, eval_op_cmp CmpKind.eq 0 1 2 sCmp = Except.ok s2
          ∧ (readReg 0 s2).kind = ValueKind.integer
          ∧ (readReg 0 s2).integer = 1)
      ∧ caseFind (readReg 1 sCmp) sCmp [(2, 7)] 3 = Except.ok 7
      ∧ (∃ s3, eval_op_memcmp 0 3 4 5 sCmp = Except.ok s3
          ∧ (readReg 0 s3).integer = 1)
      ∧ sCmp.mem.getD 0 defaultValue ≠ sCmp.mem.getD 1 defaultValue := by
  refine ⟨rfl, by decide, ⟨_, rfl, by decide, by decide⟩, rfl,
    ⟨_, rfl, by decide⟩, by decide⟩
